import Mathlib

/-!
# Verification of the air-compressor dashboard (`src/app.py`)

Shallow embedding of the pure logic of the dashboard script:
threshold classification (`get_status`, `get_overall_status`), the data
fetch (`fetch_data`, query `order by timestamp desc limit 200`), the
one-hour chart window filter, the CSV export of the Data Explorer, and
the system-event log (`generate_system_log`).

Modelling conventions:
* sensor values are rationals; a missing reading (`NaN` in pandas,
  detected by `pd.isna`) is `Option.none`;
* timestamps are integers (seconds), so `timedelta(hours=1)` is `3600`;
* statuses keep their Python string labels `"normal"`, `"warning"`,
  `"critical"`;
* the DataFrame is a list of `Reading` rows.
-/

/-- One sensor reading row of the `air_compressor` table:
`timestamp` plus the three monitored columns.  A `none` value models a
`NaN` cell. -/
structure Reading where
  ts : Int
  temperature : Option ℚ
  pressure : Option ℚ
  vibration : Option ℚ
deriving DecidableEq, Repr

/-- One entry of `STATUS_THRESHOLDS`: warn/crit bounds and gauge range. -/
structure Threshold where
  warn : ℚ
  crit : ℚ
  rangeLo : ℚ
  rangeHi : ℚ
deriving DecidableEq, Repr

/-- `STATUS_THRESHOLDS` from `app.py` lines 103–107, in dict insertion
order. -/
def STATUS_THRESHOLDS : List (String × Threshold) :=
  [("temperature", ⟨60, 80, 0, 100⟩),
   ("pressure", ⟨9, 12, 0, 15⟩),
   ("vibration", ⟨3, 5, 0, 8⟩)]

/-- Python's `str.lower()` (ASCII case folding, which covers every
parameter name the app uses). -/
def pyLower (s : String) : String := String.mk (s.data.map Char.toLower)

/-- Dictionary lookup `STATUS_THRESHOLDS[key]` (`None` when
`key not in STATUS_THRESHOLDS`), written as the if-chain the dict
lookup denotes; `statusThresholds?_eq_find?` below checks it against
the association list. -/
def statusThresholds? (key : String) : Option Threshold :=
  if key = "temperature" then some ⟨60, 80, 0, 100⟩
  else if key = "pressure" then some ⟨9, 12, 0, 15⟩
  else if key = "vibration" then some ⟨3, 5, 0, 8⟩
  else none

theorem statusThresholds?_eq_find? (key : String) :
    statusThresholds? key =
      (STATUS_THRESHOLDS.find? (fun kv => kv.1 == key)).map (·.2) := by
  unfold statusThresholds? STATUS_THRESHOLDS
  by_cases h1 : key = "temperature" <;> by_cases h2 : key = "pressure" <;>
    by_cases h3 : key = "vibration" <;>
    simp_all [List.find?, show ∀ a b : String, (a == b) = decide (a = b) from
      fun a b => rfl, eq_comm]

/-- Column access `row[p]` for the parameter columns used by the app. -/
def rowGet (r : Reading) (p : String) : Option ℚ :=
  if p = "temperature" then r.temperature
  else if p = "pressure" then r.pressure
  else if p = "vibration" then r.vibration
  else none

/-- `get_status` from `app.py` lines 130–136:
lowercases the parameter name; returns `"normal"` when the key is not a
thresholded parameter or the value is `NaN`; otherwise `"critical"` when
`val >= crit`, `"warning"` when `val >= warn`, else `"normal"`. -/
def get_status (val : Option ℚ) (param : String) : String :=
  let key := pyLower param
  match statusThresholds? key, val with
  | none, _ => "normal"
  | some _, none => "normal"
  | some t, some v =>
    if v ≥ t.crit then "critical"
    else if v ≥ t.warn then "warning"
    else "normal"

/-- Severity order on status labels: normal < warning < critical. -/
def severity (s : String) : Nat :=
  if s = "critical" then 2 else if s = "warning" then 1 else 0

/-- The classification function exactly as §4 of the spec words it
(strict comparisons): `value > crit → critical`, else
`value > warn → warning`, else `normal`.  Kept separate from
`get_status` so the two can be compared. -/
def specClassify (value warn crit : ℚ) : String :=
  if value > crit then "critical"
  else if value > warn then "warning"
  else "normal"

/-- `get_status` only ever returns one of the three labels. -/
theorem get_status_cases (val : Option ℚ) (param : String) :
    get_status val param = "normal" ∨ get_status val param = "warning" ∨
      get_status val param = "critical" := by
  cases h : statusThresholds? (pyLower param) with
  | none => cases val <;> simp [get_status, h]
  | some t =>
    cases val with
    | none => simp [get_status, h]
    | some v =>
      simp only [get_status, h]
      split_ifs <;> simp

/-- C1 counterexample: at a value exactly equal to the warning
threshold (60 for temperature), the spec's strict-comparison
classification says `"normal"`, but `get_status` returns `"warning"`:
the code uses inclusive `>=`, so a boundary value falls in the upper
band, not the lower one. -/
theorem c1_boundary_counterexample :
    specClassify 60 60 80 = "normal" ∧
      get_status (some 60) "temperature" = "warning" := by
  constructor <;> decide

/-- C1 (amended): for every parameter with configured thresholds `t`
and every non-NaN value `v`, `get_status` returns `"critical"` exactly
when `v ≥ t.crit`, otherwise `"warning"` exactly when `v ≥ t.warn`,
otherwise `"normal"`: a value exactly equal to a threshold falls in the
upper band. -/
theorem c1_inclusive_thresholds (v : ℚ) (param : String) (t : Threshold)
    (h : statusThresholds? (pyLower param) = some t) :
    get_status (some v) param =
      (if v ≥ t.crit then "critical"
       else if v ≥ t.warn then "warning"
       else "normal") := by
  simp only [get_status, h]

theorem c1_inclusive_thresholds_witness :
    statusThresholds? (pyLower "Temperature") = some ⟨60, 80, 0, 100⟩ ∧
      get_status (some 60) "Temperature" =
        (if (60 : ℚ) ≥ (80 : ℚ) then "critical"
         else if (60 : ℚ) ≥ (60 : ℚ) then "warning"
         else "normal") :=
  ⟨by decide, c1_inclusive_thresholds 60 "Temperature" ⟨60, 80, 0, 100⟩ (by decide)⟩

/-- C2: for a fixed parameter (hence fixed thresholds) and non-NaN
values `q1 ≤ q2`, the severity of the status of `q1` is at most the
severity of the status of `q2`. -/
theorem c2_classify_monotonic (q1 q2 : ℚ) (param : String) (h : q1 ≤ q2) :
    severity (get_status (some q1) param) ≤
      severity (get_status (some q2) param) := by
  cases ht : statusThresholds? (pyLower param) with
  | none => simp [get_status, ht]
  | some t =>
    simp only [get_status, ht]
    split_ifs <;> simp [severity] <;> linarith

theorem c2_classify_monotonic_witness :
    (50 : ℚ) ≤ 70 ∧
      severity (get_status (some 50) "temperature") ≤
        severity (get_status (some 70) "temperature") :=
  ⟨by norm_num, c2_classify_monotonic 50 70 "temperature" (by norm_num)⟩

/-- C7: `get_status` is total: for every value (including the NaN case
`none`) and every parameter string, it returns one of the three labels
`"normal"`, `"warning"`, `"critical"`; the definition is a total
function, so no error condition exists. -/
theorem c7_get_status_total (val : Option ℚ) (param : String) :
    get_status val param = "normal" ∨ get_status val param = "warning" ∨
      get_status val param = "critical" :=
  get_status_cases val param

/-- C8: a NaN value, or a parameter whose lowercased name is not one of
the three thresholded parameters, is classified `"normal"`. -/
theorem c8_nan_and_unknown_normal (val : Option ℚ) (param : String)
    (h : val = none ∨
      pyLower param ∉ ["temperature", "pressure", "vibration"]) :
    get_status val param = "normal" := by
  rcases h with h | h
  · subst h
    cases ht : statusThresholds? (pyLower param) <;> simp [get_status, ht]
  · have hnone : statusThresholds? (pyLower param) = none := by
      simp only [List.mem_cons, List.not_mem_nil, or_false, not_or] at h
      simp [statusThresholds?, h.1, h.2.1, h.2.2]
    cases val <;> simp [get_status, hnone]

theorem c8_nan_and_unknown_normal_witness :
    get_status none "Temperature" = "normal" ∧
      get_status (some 1000) "humidity" = "normal" :=
  ⟨c8_nan_and_unknown_normal none "Temperature" (Or.inl rfl),
   c8_nan_and_unknown_normal (some 1000) "humidity" (Or.inr (by decide))⟩

/-- The dict key order `STATUS_THRESHOLDS.keys()`. -/
def paramKeys : List String := STATUS_THRESHOLDS.map (·.1)

/-- `get_overall_status` from `app.py` lines 138–142: collects the
status of each thresholded parameter on the latest row; `"critical"`
when some status is critical, else `"warning"` when some is warning,
else `"normal"`. -/
def get_overall_status (row : Reading) : String :=
  let statuses := paramKeys.map (fun p => get_status (rowGet row p) p)
  if "critical" ∈ statuses then "critical"
  else if "warning" ∈ statuses then "warning"
  else "normal"

/-- Inverse of `severity` on the three labels. -/
def labelOfSeverity (n : Nat) : String :=
  if n ≥ 2 then "critical" else if n = 1 then "warning" else "normal"

/-- C9: the overall status is the maximum severity of the three
per-parameter statuses (normal < warning < critical). -/
theorem c9_overall_is_max_severity (row : Reading) :
    get_overall_status row =
      labelOfSeverity
        (max (max (severity (get_status row.temperature "temperature"))
                  (severity (get_status row.pressure "pressure")))
             (severity (get_status row.vibration "vibration"))) := by
  rcases get_status_cases row.temperature "temperature" with h1 | h1 | h1 <;>
    rcases get_status_cases row.pressure "pressure" with h2 | h2 | h2 <;>
    rcases get_status_cases row.vibration "vibration" with h3 | h3 | h3 <;>
    simp [get_overall_status, paramKeys, STATUS_THRESHOLDS, rowGet,
      h1, h2, h3, severity, labelOfSeverity]

/-- `one_hour_ago` from `app.py` line 249: now minus one hour
(timestamps in seconds). -/
def one_hour_ago (now : Int) : Int := now - 3600

/-- `chart_data = data[data.index >= one_hour_ago]` from `app.py`
line 250. -/
def chart_data (data : List Reading) (now : Int) : List Reading :=
  data.filter (fun r => decide (one_hour_ago now ≤ r.ts))

/-- C3: a row is in the chart window exactly when it is a row of the
input whose timestamp is at least `now` minus one hour: the filter
returns only such rows and removes none of them. -/
theorem c3_window_filter (data : List Reading) (now : Int) (r : Reading) :
    r ∈ chart_data data now ↔ r ∈ data ∧ now - 3600 ≤ r.ts := by
  simp [chart_data, List.mem_filter, one_hour_ago]

/-- Environment of one `fetch_data` call: whether `init_supabase`
produced a client, and the backend's answer to the query when one is
issued (a raised error, or the rows of `resp.data`). -/
structure FetchEnv where
  clientOk : Bool
  response : Except String (List Reading)

/-- What one refresh produces: the error banners shown, the DataFrame
rows returned, and how many queries were issued. -/
structure FetchResult where
  banners : List String
  rows : List Reading
  queries : Nat

/-- `df.set_index("timestamp").sort_index()` from `app.py` line 125:
sort the rows by timestamp, ascending. -/
def processRows (rows : List Reading) : List Reading :=
  rows.mergeSort (fun a b => decide (a.ts ≤ b.ts))

/-- `fetch_data` from `app.py` lines 111–128: error banner and empty
DataFrame when the client is missing; the query is issued once;
a raised error is caught and becomes a banner plus an empty DataFrame;
an empty `resp.data` becomes an empty DataFrame; otherwise the rows
sorted by timestamp. -/
def fetch_data (env : FetchEnv) : FetchResult :=
  if !env.clientOk then
    ⟨["Supabase client not initialized. Cannot fetch data."], [], 0⟩
  else
    match env.response with
    | .error e => ⟨["Error fetching data: " ++ e], [], 1⟩
    | .ok rows => if rows.isEmpty then ⟨[], [], 1⟩ else ⟨[], processRows rows, 1⟩

/-- The Live Monitor call site, `app.py` lines 207–210: the banners of
`fetch_data` plus `SYSTEM OFFLINE - NO DATA RECEIVED` when the
DataFrame is empty. -/
def liveMonitorBanners (env : FetchEnv) : List String :=
  let res := fetch_data env
  res.banners ++ (if res.rows.isEmpty then ["SYSTEM OFFLINE - NO DATA RECEIVED"] else [])

/-- C4: on every failure mode — missing client, raised query error, or
empty result set — `fetch_data` returns an empty DataFrame, the Live
Monitor shows an error banner, and at most one query was issued (no
retry within the refresh). -/
theorem c4_failures_surface_banner (env : FetchEnv)
    (h : env.clientOk = false ∨ (∃ e, env.response = .error e) ∨
      env.response = .ok []) :
    (fetch_data env).rows = [] ∧ liveMonitorBanners env ≠ [] ∧
      (fetch_data env).queries ≤ 1 := by
  cases hc : env.clientOk with
  | false => simp [fetch_data, liveMonitorBanners, hc]
  | true =>
    rcases h with h | ⟨e, h⟩ | h <;>
      simp_all [fetch_data, liveMonitorBanners]

theorem c4_failures_surface_banner_witness :
    (fetch_data ⟨true, Except.error "timeout"⟩).rows = [] ∧
      liveMonitorBanners ⟨true, Except.error "timeout"⟩ ≠ [] ∧
      (fetch_data ⟨true, Except.error "timeout"⟩).queries ≤ 1 :=
  c4_failures_surface_banner ⟨true, Except.error "timeout"⟩
    (Or.inr (Or.inl ⟨"timeout", rfl⟩))

/-- The server side of the `fetch_data` query, `app.py` line 117:
`order("timestamp", desc=True).limit(200)` — the table sorted by
timestamp descending, truncated to the first 200 rows. -/
def queryRecent (table : List Reading) : List Reading :=
  (table.mergeSort (fun a b => decide (b.ts ≤ a.ts))).take 200

/-- The rows the `limit(200)` clause discards. -/
def droppedRows (table : List Reading) : List Reading :=
  (table.mergeSort (fun a b => decide (b.ts ≤ a.ts))).drop 200

/-- The DataFrame `fetch_data` returns when the client is up and the
query of `queryRecent` succeeds on `table`. -/
def fetchRows (table : List Reading) : List Reading :=
  (fetch_data ⟨true, Except.ok (queryRecent table)⟩).rows

theorem processRows_perm (l : List Reading) : (processRows l).Perm l :=
  List.mergeSort_perm l _

theorem processRows_sorted (l : List Reading) :
    List.Pairwise (fun a b : Reading => a.ts ≤ b.ts) (processRows l) := by
  refine (@List.sorted_mergeSort Reading
    (fun a b => decide (a.ts ≤ b.ts)) ?_ ?_ l).imp ?_
  · intro a b c hab hbc
    simp only [decide_eq_true_eq] at hab hbc ⊢
    omega
  · intro a b
    simp only [Bool.or_eq_true, decide_eq_true_eq]
    exact Int.le_total a.ts b.ts
  · intro a b h
    simpa using h

theorem fetchRows_eq (table : List Reading) :
    fetchRows table = processRows (queryRecent table) := by
  unfold fetchRows fetch_data
  cases h : (queryRecent table).isEmpty
  · simp [h]
  · simp [h, List.isEmpty_iff.mp h, processRows]

/-- C5: the fetched DataFrame has at most 200 rows, its timestamp index
is non-decreasing, it is (up to the ascending re-sort) exactly the
first 200 rows of the descending-ordered table, and every discarded row
has a timestamp no larger than every kept row (the kept rows are the
most recent ones). -/
theorem c5_fetch_query_shape (table : List Reading) :
    (fetchRows table).length ≤ 200 ∧
      List.Pairwise (fun a b : Reading => a.ts ≤ b.ts) (fetchRows table) ∧
      (fetchRows table).Perm (queryRecent table) ∧
      List.Pairwise (fun a b : Reading => b.ts ≤ a.ts)
        (queryRecent table ++ droppedRows table) := by
  refine ⟨?_, ?_, ?_, ?_⟩
  · rw [fetchRows_eq, (processRows_perm _).length_eq]
    simp [queryRecent]
  · rw [fetchRows_eq]
    exact processRows_sorted _
  · rw [fetchRows_eq]
    exact processRows_perm _
  · have h := @List.sorted_mergeSort Reading
      (fun a b : Reading => decide (b.ts ≤ a.ts))
      (fun a b c hab hbc => by
        simp only [decide_eq_true_eq] at hab hbc ⊢; omega)
      (fun a b => by
        simp only [Bool.or_eq_true, decide_eq_true_eq]
        exact Int.le_total b.ts a.ts)
      table
    rw [queryRecent, droppedRows, List.take_append_drop]
    exact h.imp (by simp)

/-- Join cell texts with a separator character, as a CSV writer does on
one record (and, with the newline separator, across records). -/
def joinWith (sep : Char) : List (List Char) → List Char
  | [] => []
  | [c] => c
  | c :: c2 :: cs => c ++ sep :: joinWith sep (c2 :: cs)

/-- Split a text at every occurrence of a separator character, as a CSV
reader does. -/
def splitOnChar (sep : Char) : List Char → List (List Char)
  | [] => [[]]
  | c :: rest =>
    match splitOnChar sep rest with
    | [] => [[]]
    | x :: xs => if c = sep then [] :: x :: xs else (c :: x) :: xs

theorem splitOnChar_ne_nil (sep : Char) (l : List Char) :
    splitOnChar sep l ≠ [] := by
  cases l with
  | nil => simp [splitOnChar]
  | cons c rest =>
    simp only [splitOnChar]
    cases splitOnChar sep rest with
    | nil => simp
    | cons x xs => split_ifs <;> simp

theorem splitOnChar_no_sep (sep : Char) (c : List Char) (h : sep ∉ c) :
    splitOnChar sep c = [c] := by
  induction c with
  | nil => rfl
  | cons a rest ih =>
    have ha : a ≠ sep := fun e => h (by simp [e])
    have h' : sep ∉ rest := fun hm => h (List.mem_cons_of_mem _ hm)
    simp [splitOnChar, ih h', ha]

theorem splitOnChar_append (sep : Char) (c rest : List Char) (h : sep ∉ c) :
    splitOnChar sep (c ++ sep :: rest) = c :: splitOnChar sep rest := by
  induction c with
  | nil =>
    cases hs : splitOnChar sep rest with
    | nil => exact absurd hs (splitOnChar_ne_nil sep rest)
    | cons x xs => simp [splitOnChar, hs]
  | cons a c ih =>
    have ha : a ≠ sep := fun e => h (by simp [e])
    have h' : sep ∉ c := fun hm => h (List.mem_cons_of_mem _ hm)
    simp [splitOnChar, ih h', ha]

theorem join_split (sep : Char) (cs : List (List Char)) (hne : cs ≠ [])
    (h : ∀ c ∈ cs, sep ∉ c) :
    splitOnChar sep (joinWith sep cs) = cs := by
  induction cs with
  | nil => cases hne rfl
  | cons c cs ih =>
    cases cs with
    | nil => simp [joinWith, splitOnChar_no_sep sep c (h c (by simp))]
    | cons c2 cs2 =>
      rw [joinWith, splitOnChar_append sep c _ (h c (by simp)),
        ih (by simp) (fun x hx => h x (List.mem_cons_of_mem _ hx))]

theorem mem_joinWith (sep : Char) (x : Char) :
    ∀ cs : List (List Char), x ∈ joinWith sep cs →
      x = sep ∨ ∃ c ∈ cs, x ∈ c
  | [] => by simp [joinWith]
  | [c] => fun hx => Or.inr ⟨c, by simp, by simpa [joinWith] using hx⟩
  | c :: c2 :: cs => fun hx => by
    rw [joinWith] at hx
    rcases List.mem_append.mp hx with h | h
    · exact Or.inr ⟨c, by simp, h⟩
    · rcases List.mem_cons.mp h with h | h
      · exact Or.inl h
      · rcases mem_joinWith sep x (c2 :: cs) h with h | ⟨c', hc', hxc'⟩
        · exact Or.inl h
        · exact Or.inr ⟨c', List.mem_cons_of_mem _ hc', hxc'⟩

/-- `df[display_cols].to_csv(index=False)` from `app.py` line 295:
cells of a record joined by commas, records joined by newlines, no
index column.  A table is a list of records, each a list of cell
texts (the first record being the header `to_csv` writes). -/
def to_csv (t : List (List (List Char))) : List Char :=
  joinWith '\n' (t.map (joinWith ','))

/-- Re-parsing the exported CSV text: split into records at newlines,
then each record into cells at commas. -/
def parse_csv (s : List Char) : List (List (List Char)) :=
  (splitOnChar '\n' s).map (splitOnChar ',')

/-- `display_cols` from `app.py` line 293:
`["timestamp"] + selected_params if selected_params else ["timestamp"]`. -/
def display_cols (sel : List String) : List String :=
  if sel.isEmpty then ["timestamp"] else "timestamp" :: sel

theorem parse_to_csv (t : List (List (List Char))) (hne : t ≠ [])
    (hrow : ∀ r ∈ t, r ≠ [])
    (hcell : ∀ r ∈ t, ∀ c ∈ r, ',' ∉ c ∧ '\n' ∉ c) :
    parse_csv (to_csv t) = t := by
  unfold parse_csv to_csv
  have hnl : ∀ jr ∈ t.map (joinWith ','), '\n' ∉ jr := by
    intro jr hjr hmem
    rcases List.mem_map.mp hjr with ⟨r, hr, rfl⟩
    rcases mem_joinWith ',' '\n' r hmem with h | ⟨c, hc, hxc⟩
    · exact absurd h (by decide)
    · exact (hcell r hr c hc).2 hxc
  rw [join_split '\n' _ (by simpa using hne) hnl, List.map_map]
  have hmap : t.map (splitOnChar ',' ∘ joinWith ',') = t.map id :=
    List.map_congr_left (fun r hr =>
      join_split ',' r (hrow r hr) (fun c hc => (hcell r hr c hc).1))
  simpa using hmap

/-- C6: exporting a displayed table (header row of `display_cols`
followed by the data rows) to CSV and re-parsing it reproduces the
table exactly — in particular the same row count and the same cell
values in every column — provided no cell text contains a comma or a
newline (sensor readings and timestamps never do). -/
theorem c6_csv_roundtrip (sel : List String)
    (rows : List (List (List Char)))
    (hrow : ∀ r ∈ rows, r ≠ [])
    (hcell : ∀ r ∈ rows, ∀ c ∈ r, ',' ∉ c ∧ '\n' ∉ c)
    (hsel : ∀ s ∈ sel, ',' ∉ s.data ∧ '\n' ∉ s.data) :
    parse_csv (to_csv (((display_cols sel).map String.data) :: rows)) =
      ((display_cols sel).map String.data) :: rows := by
  apply parse_to_csv
  · simp
  · intro r hr
    rcases List.mem_cons.mp hr with rfl | hr
    · unfold display_cols
      split_ifs <;> simp
    · exact hrow r hr
  · intro r hr c hc
    rcases List.mem_cons.mp hr with rfl | hr
    · rcases List.mem_map.mp hc with ⟨s, hs, rfl⟩
      have : s = "timestamp" ∨ s ∈ sel := by
        unfold display_cols at hs
        split_ifs at hs <;> simp_all
      rcases this with rfl | hs'
      · exact ⟨by decide, by decide⟩
      · exact hsel s hs'
    · exact hcell r hr c hc

theorem c6_csv_roundtrip_witness :
    parse_csv (to_csv
      (((display_cols ["temperature"]).map String.data) ::
        [[['1'], ['5', '0']], [['2'], ['7', '0']]])) =
      ((display_cols ["temperature"]).map String.data) ::
        [[['1'], ['5', '0']], [['2'], ['7', '0']]] :=
  c6_csv_roundtrip ["temperature"]
    [[['1'], ['5', '0']], [['2'], ['7', '0']]]
    (by decide) (by decide) (by decide)

/-- One record of the system event log: the data carried by the message
string `app.py` line 193 formats (timestamp, parameter, new status, and
the reading's value). -/
structure LogEntry where
  ts : Int
  param : String
  status : String
  value : Option ℚ
deriving DecidableEq, Repr

/-- The inner loop of `generate_system_log`, `app.py` lines 189–195:
walk the rows in the given order carrying the previous status
(initially `"normal"`), appending an entry whenever the current status
differs from the previous one. -/
def scanLog (param : String) : String → List Reading → List LogEntry
  | _, [] => []
  | prev, r :: rest =>
    let cur := get_status (rowGet r param) param
    let tail := scanLog param cur rest
    if cur ≠ prev then ⟨r.ts, param, cur, rowGet r param⟩ :: tail else tail

/-- `generate_system_log` from `app.py` lines 183–197: on a non-empty
DataFrame (which `fetch_data` hands over sorted ascending by
timestamp), reverse it (`df.iloc[::-1]`), scan each parameter's column
in that reversed order accumulating change entries, then keep the last
five entries (`log_entries[-5:]`) and reverse them (`[::-1]`). -/
def generate_system_log (df : List Reading) : List LogEntry :=
  if df.isEmpty then [] else
    let dfRev := df.reverse
    let entries := paramKeys.foldl (fun acc p => acc ++ scanLog p "normal" dfRev) []
    (entries.drop (entries.length - 5)).reverse

/-- C10: on the ascending DataFrame with temperature 50 (normal) at
time 1 and 70 (warning) at time 2, an oldest-to-newest scan — what the
code's own comments describe — would log exactly one entry, the change
to warning at time 2.  Because `fetch_data` already returns the rows
ascending, the `df.iloc[::-1]` reversal makes the code scan newest to
oldest: it logs a change to warning at time 2 and then a spurious
change back to normal at time 1, and displays them oldest first. -/
theorem c10_log_scans_newest_to_oldest :
    generate_system_log
      [⟨1, some 50, some 5, some 1⟩, ⟨2, some 70, some 5, some 1⟩] =
      [⟨1, "temperature", "normal", some 50⟩,
       ⟨2, "temperature", "warning", some 70⟩] := by
  decide
